import Mathlib

/-!
Shallow embedding of the ceresdb-client-rs connection/request layer:
`src/rpc_client/rpc_client_impl.rs` (request dispatcher, auth interceptor,
session factory) and `src/db_client/inner.rs` (lazy once-initialized inner
client).  Durations are modelled as natural numbers (e.g. milliseconds);
transport-level collaborators (the tonic channel, the URI parser, the
network connect) are passed in as explicit function parameters so that the
embedded functions stay pure and the "no network I/O happens" facts become
parametricity in those arguments.
-/

namespace Ceres

/-- Durations, modelled as a natural number of time units. -/
abbrev Duration := Nat

/-- Model of `tonic::Status`, the transport-level error carried by `Error::Rpc`. -/
abbrev Status := String

/-- The per-call request context (`RpcContext`): tenant, token, optional timeout. -/
structure RpcContext where
  tenant : String
  token : String
  timeout : Option Duration
deriving DecidableEq

/-- The wire response header (`ceresdbproto::common::ResponseHeader`). -/
structure ResponseHeader where
  code : Nat
  error : String
deriving DecidableEq

/-- `AuthCode` from `crate::errors`. -/
inductive AuthCode where
  | InvalidTenantMeta
  | InvalidTokenMeta
deriving DecidableEq

/-- `AuthFailStatus` from `crate::errors`. -/
structure AuthFailStatus where
  code : AuthCode
  msg : String
deriving DecidableEq

/-- `ServerError` from `crate::errors`. -/
structure ServerError where
  code : Nat
  msg : String
deriving DecidableEq

/-- `crate::errors::Error`.  `Connect` carries the endpoint address and the
underlying cause (the boxed source error, modelled as a string);
`Rpc` wraps a transport status. -/
inductive Error where
  | AuthFail : AuthFailStatus → Error
  | Rpc : Status → Error
  | Server : ServerError → Error
  | Connect : (addr : String) → (source : String) → Error
deriving DecidableEq

/-- Modelled from the spec: `crate::util::is_ok` is not under `src/`; the spec
says the wire code space has one reserved "success" value, so the success
code is fixed as this constant and `is_ok` compares against it. -/
def okCode : Nat := 200

/-- Modelled from the spec: `crate::util::is_ok` — true exactly on the reserved
success code. -/
def is_ok (code : Nat) : Bool := code == okCode

/-- Modelled from the spec: encodability of a string as tonic ASCII metadata
(`ctx.tenant.parse::<MetadataValue<Ascii>>()`, an external collaborator).
A byte is legal iff it is ≥ 32 and ≠ 127, or a horizontal tab; a raw
newline is illegal.  For ASCII characters the char code is the byte; any
character ≥ 128 encodes to bytes ≥ 128, which are legal obs-text, and its
char code also satisfies the test, so the check is stated per character. -/
def isValidMetadataChar (c : Char) : Bool :=
  (32 ≤ c.toNat && c.toNat ≠ 127) || c.toNat == 9

/-- Modelled from the spec: a string can be encoded as transport metadata iff
every character passes `isValidMetadataChar`. -/
def isValidMetadata (s : String) : Bool :=
  s.data.all isValidMetadataChar

/-- Request metadata (`tonic::metadata::MetadataMap`), modelled as a partial
map from keys to values. -/
def Metadata := String → Option String

/-- `MetadataMap::insert`: set the value for a key, replacing any previous one. -/
def Metadata.insert (m : Metadata) (k v : String) : Metadata :=
  fun key => if key == k then some v else m key

/-- The empty metadata map of a freshly built request. -/
def Metadata.empty : Metadata := fun _ => none

/-- `tonic::Request<T>`: the message plus the per-request timeout and metadata. -/
structure Request (α : Type) where
  message : α
  timeout : Option Duration := none
  metadata : Metadata := Metadata.empty

/-- `Request::new`: wraps a message with no timeout and empty metadata. -/
def Request.new {α : Type} (msg : α) : Request α :=
  { message := msg }

/-- `Request::set_timeout`, as a functional update. -/
def Request.set_timeout {α : Type} (r : Request α) (d : Duration) : Request α :=
  { r with timeout := some d }

/-- A protobuf response message: the optional embedded `ResponseHeader` plus
the rest of the message's fields (the payload), kept abstract. -/
structure PbResponse (α : Type) where
  header : Option ResponseHeader
  payload : α
deriving DecidableEq

/-- `RPC_HEADER_TENANT_KEY`. -/
def RPC_HEADER_TENANT_KEY : String := "x-ceresdb-access-tenant"

/-- `AuthInterceptor`: the validated, wire-encodable tenant and token. -/
structure AuthInterceptor where
  tenant : String
  tokenMeta : String
deriving DecidableEq

/-- `AuthInterceptor::new`: parse the tenant as metadata (failing with
`AuthFail(InvalidTenantMeta)`), then the token (failing with
`AuthFail(InvalidTokenMeta)`), in that order. -/
def AuthInterceptor.new (ctx : RpcContext) : Except Error AuthInterceptor :=
  if isValidMetadata ctx.tenant then
    if isValidMetadata ctx.token then
      Except.ok { tenant := ctx.tenant, tokenMeta := ctx.token }
    else
      Except.error (Error.AuthFail
        { code := AuthCode.InvalidTokenMeta
          msg := "invalid token: " ++ ctx.token ++ ", can not be converted to grpc metadata" })
  else
    Except.error (Error.AuthFail
      { code := AuthCode.InvalidTenantMeta
        msg := "invalid tenant: " ++ ctx.tenant ++ ", can not be converted to grpc metadata" })

/-- `Interceptor::call` for `AuthInterceptor`: insert the tenant under
`RPC_HEADER_TENANT_KEY` into the request metadata and return the request. -/
def AuthInterceptor.call {α : Type} (self : AuthInterceptor) (request : Request α) :
    Except Status (Request α) :=
  Except.ok { request with
    metadata := request.metadata.insert RPC_HEADER_TENANT_KEY self.tenant }

/-- A tonic `Channel`, modelled as remembering the configured endpoint it was
connected from. -/
structure Channel where
  fromEndpoint : String
deriving DecidableEq

/-- `RpcClientImpl`: the channel plus the two default timeouts. -/
structure RpcClientImpl where
  channel : Channel
  default_read_timeout : Duration
  default_write_timeout : Duration
deriving DecidableEq

/-- `RpcClientImpl::new`. -/
def RpcClientImpl.new (channel : Channel) (default_read_timeout default_write_timeout : Duration) :
    RpcClientImpl :=
  { channel := channel
    default_read_timeout := default_read_timeout
    default_write_timeout := default_write_timeout }

/-- `RpcClientImpl::check_status`: a non-success header code becomes a
`Server` error carrying the header's code and error message. -/
def RpcClientImpl.check_status (header : ResponseHeader) : Except Error Unit :=
  if !is_ok header.code then
    Except.error (Error.Server { code := header.code, msg := header.error })
  else
    Except.ok ()

/-- `RpcClientImpl::make_request`: the deadline is the context's timeout when
present, else the supplied default. -/
def RpcClientImpl.make_request {α : Type} (ctx : RpcContext) (req : α)
    (default_timeout : Duration) : Request α :=
  let timeout := ctx.timeout.getD default_timeout
  (Request.new req).set_timeout timeout

/-- `RpcClientImpl::make_query_request`. -/
def RpcClientImpl.make_query_request {α : Type} (self : RpcClientImpl) (ctx : RpcContext)
    (req : α) : Request α :=
  RpcClientImpl.make_request ctx req self.default_read_timeout

/-- `RpcClientImpl::make_write_request`. -/
def RpcClientImpl.make_write_request {α : Type} (self : RpcClientImpl) (ctx : RpcContext)
    (req : α) : Request α :=
  RpcClientImpl.make_request ctx req self.default_write_timeout

/-- The transport send of one call: given the interceptor attached to the
client (`with_interceptor`) and the outbound request, either a transport
status (network error, deadline exceeded, ...) or the decoded response. -/
def Transport (α β : Type) := AuthInterceptor → Request α → Except Status (PbResponse β)

/-- Shared response handling of the three operations: `resp.header.take()`
removes the header from the response; when a header was present its status
is checked; the response (header now absent) is returned on success. -/
def RpcClientImpl.unwrapResponse {β : Type} (resp : PbResponse β) : Except Error (PbResponse β) :=
  match resp.header with
  | some header =>
    match RpcClientImpl.check_status header with
    | Except.error e => Except.error e
    | Except.ok _ => Except.ok { resp with header := none }
  | none => Except.ok { resp with header := none }

/-- `RpcClient::query` for `RpcClientImpl`: build the interceptor, send the
request with the query deadline, wrap transport errors in `Rpc`, then
check the header (if present) and return the response. -/
def RpcClientImpl.query {α β : Type} (self : RpcClientImpl) (transport : Transport α β)
    (ctx : RpcContext) (req : α) : Except Error (PbResponse β) :=
  match AuthInterceptor.new ctx with
  | Except.error e => Except.error e
  | Except.ok interceptor =>
    match transport interceptor (self.make_query_request ctx req) with
    | Except.error status => Except.error (Error.Rpc status)
    | Except.ok resp => RpcClientImpl.unwrapResponse resp

/-- `RpcClient::write` for `RpcClientImpl`: as `query`, with the write deadline. -/
def RpcClientImpl.write {α β : Type} (self : RpcClientImpl) (transport : Transport α β)
    (ctx : RpcContext) (req : α) : Except Error (PbResponse β) :=
  match AuthInterceptor.new ctx with
  | Except.error e => Except.error e
  | Except.ok interceptor =>
    match transport interceptor (self.make_write_request ctx req) with
    | Except.error status => Except.error (Error.Rpc status)
    | Except.ok resp => RpcClientImpl.unwrapResponse resp

/-- `RpcClient::route` for `RpcClientImpl`: as `query`, but the route request
deliberately uses the write timeout. -/
def RpcClientImpl.route {α β : Type} (self : RpcClientImpl) (transport : Transport α β)
    (ctx : RpcContext) (req : α) : Except Error (PbResponse β) :=
  match AuthInterceptor.new ctx with
  | Except.error e => Except.error e
  | Except.ok interceptor =>
    match transport interceptor (RpcClientImpl.make_request ctx req self.default_write_timeout) with
    | Except.error status => Except.error (Error.Rpc status)
    | Except.ok resp => RpcClientImpl.unwrapResponse resp

/-- `RpcOptions`: connect/read/write timeouts. -/
structure RpcOptions where
  connect_timeout : Duration
  read_timeout : Duration
  write_timeout : Duration
deriving DecidableEq

/-- `RpcConfig`: the keep-alive settings. -/
structure RpcConfig where
  keep_alive_while_idle : Bool
  keep_alive_timeout : Duration
  keep_alive_interval : Duration
deriving DecidableEq

/-- A tonic `Endpoint` under configuration: the URI it was created from and
the connection-level settings applied so far (all initially unset; tonic's
keep-alive-while-idle default is off). -/
structure TonicEndpoint where
  uri : String
  connectTimeout : Option Duration := none
  keepAliveTimeout : Option Duration := none
  keepAliveWhileIdle : Bool := false
  http2KeepAliveInterval : Option Duration := none
deriving DecidableEq

/-- Modelled from the spec: `tonic::transport::Endpoint::from_shared`, the
external URI parser; validity of the URI string is an oracle parameter,
and the parse error is the cause carried by the `Connect` error. -/
def TonicEndpoint.from_shared (validUri : String → Bool) (s : String) :
    Except String TonicEndpoint :=
  if validUri s then Except.ok { uri := s }
  else Except.error ("invalid uri: " ++ s)

/-- `Endpoint::connect_timeout`. -/
def TonicEndpoint.connect_timeout (e : TonicEndpoint) (d : Duration) : TonicEndpoint :=
  { e with connectTimeout := some d }

/-- `Endpoint::keep_alive_timeout`. -/
def TonicEndpoint.keep_alive_timeout (e : TonicEndpoint) (d : Duration) : TonicEndpoint :=
  { e with keepAliveTimeout := some d }

/-- `Endpoint::keep_alive_while_idle`. -/
def TonicEndpoint.keep_alive_while_idle (e : TonicEndpoint) (b : Bool) : TonicEndpoint :=
  { e with keepAliveWhileIdle := b }

/-- `Endpoint::http2_keep_alive_interval`. -/
def TonicEndpoint.http2_keep_alive_interval (e : TonicEndpoint) (d : Duration) : TonicEndpoint :=
  { e with http2KeepAliveInterval := d }

/-- `RpcClientImplFactory`. -/
structure RpcClientImplFactory where
  rpc_opts : RpcOptions
  grpc_config : RpcConfig
deriving DecidableEq

/-- `RpcClientImplFactory::make_endpoint_with_scheme`: prefix the plaintext
scheme. -/
def RpcClientImplFactory.make_endpoint_with_scheme (endpoint : String) : String :=
  "http://" ++ endpoint

/-- `RpcClientFactory::build` for `RpcClientImplFactory`: prefix the scheme,
parse the endpoint (a parse failure becomes `Connect` with the original
endpoint, no connection attempted), apply the connection-level
configuration according to `keep_alive_while_idle`, perform the handshake
(`connect`, an external effect passed as a parameter; its failure also
becomes `Connect`), and wrap the channel with the two default timeouts. -/
def RpcClientImplFactory.build (self : RpcClientImplFactory)
    (validUri : String → Bool) (connect : TonicEndpoint → Except String Channel)
    (endpoint : String) : Except Error RpcClientImpl :=
  let endpoint_with_scheme := RpcClientImplFactory.make_endpoint_with_scheme endpoint
  match TonicEndpoint.from_shared validUri endpoint_with_scheme with
  | Except.error e => Except.error (Error.Connect endpoint e)
  | Except.ok configured_endpoint =>
    let configured_endpoint :=
      match self.grpc_config.keep_alive_while_idle with
      | true =>
        ((((configured_endpoint.connect_timeout
          self.rpc_opts.connect_timeout).keep_alive_timeout
          self.grpc_config.keep_alive_timeout).keep_alive_while_idle
          true).http2_keep_alive_interval
          self.grpc_config.keep_alive_interval)
      | false =>
        (configured_endpoint.connect_timeout
          self.rpc_opts.connect_timeout).keep_alive_while_idle false
    match connect configured_endpoint with
    | Except.error e => Except.error (Error.Connect endpoint e)
    | Except.ok channel =>
      Except.ok (RpcClientImpl.new channel self.rpc_opts.read_timeout self.rpc_opts.write_timeout)

/-- A session handle (`Arc<dyn RpcClient>`), modelled as an identifier. -/
abbrev Handle := Nat

/-- The observable state of the `OnceCell<Arc<dyn RpcClient>>` inside
`InnerClient`, together with a counter of how many times the factory's
build routine has been invoked. -/
structure CellState where
  cell : Option Handle
  buildCount : Nat
deriving DecidableEq

/-- A fresh `InnerClient`'s cell: uninitialized, no build executed. -/
def CellState.fresh : CellState := { cell := none, buildCount := 0 }

/-- Modelled from the spec: `tokio::sync::OnceCell::get_or_try_init` (the
async cache-once cell, an external collaborator).  Initialization attempts
are serialized, so any interleaving of concurrent callers is a sequence of
these steps: a filled cell is returned as-is without invoking the
initializer; on an empty cell the initializer runs (its invocations are
numbered by `buildCount`), a success is cached and returned, and a failure
is returned while the cell stays empty. -/
def get_or_try_init (init : Nat → Except Error Handle) (s : CellState) :
    CellState × Except Error Handle :=
  match s.cell with
  | some h => (s, Except.ok h)
  | none =>
    match init s.buildCount with
    | Except.ok h => ({ cell := some h, buildCount := s.buildCount + 1 }, Except.ok h)
    | Except.error e => ({ cell := none, buildCount := s.buildCount + 1 }, Except.error e)

/-- `InnerClient<F>`: the factory (its `build`, numbered by invocation so a
retry may observe a different outcome) and the bound endpoint. -/
structure InnerClient where
  factoryBuild : String → Nat → Except Error Handle
  endpoint : String

/-- `InnerClient::init`: one factory build attempt against the bound endpoint. -/
def InnerClient.init (c : InnerClient) (attempt : Nat) : Except Error Handle :=
  c.factoryBuild c.endpoint attempt

/-- `InnerClient::query_internal`: obtain (or lazily initialize) the cached
client handle, then perform the query through it and convert the protobuf
response (`and_then(QueryResponse::try_from)`); the client call and the
conversions are parameters. -/
def InnerClient.query_internal {QReq QPb QPbResp QResp : Type} (c : InnerClient)
    (clientQuery : Handle → RpcContext → QPb → Except Error QPbResp)
    (intoPb : QReq → QPb) (tryFrom : QPbResp → Except Error QResp)
    (ctx : RpcContext) (req : QReq) (s : CellState) : CellState × Except Error QResp :=
  match get_or_try_init c.init s with
  | (s1, Except.error e) => (s1, Except.error e)
  | (s1, Except.ok client_handle) =>
    (s1, (clientQuery client_handle ctx (intoPb req)).bind tryFrom)

/-- `InnerClient::write_internal`: obtain (or lazily initialize) the cached
client handle, then perform the write through it and convert the protobuf
response (`map(|resp_pb| resp_pb.into())`). -/
def InnerClient.write_internal {WReq WPb WPbResp WResp : Type} (c : InnerClient)
    (clientWrite : Handle → RpcContext → WPb → Except Error WPbResp)
    (intoPb : WReq → WPb) (intoResp : WPbResp → WResp)
    (ctx : RpcContext) (req : WReq) (s : CellState) : CellState × Except Error WResp :=
  match get_or_try_init c.init s with
  | (s1, Except.error e) => (s1, Except.error e)
  | (s1, Except.ok client_handle) =>
    (s1, (clientWrite client_handle ctx (intoPb req)).map intoResp)

/-- A trace of `n` successive `query_internal` calls starting from a fresh
client — the serialized interleaving of `n` callers racing for first use —
with the handle each call used as its observed result (the client call is
instantiated with a probe returning the handle it was given). -/
def runQueryCalls (c : InnerClient) (ctx : RpcContext) :
    Nat → CellState × List (Except Error Handle)
  | 0 => (CellState.fresh, [])
  | n + 1 =>
    let p := runQueryCalls c ctx n
    let q := c.query_internal (fun h _ _ => Except.ok h) (fun r : Nat => r) Except.ok ctx 0 p.1
    (q.1, p.2 ++ [q.2])

/-! ## Theorems -/

/-- C1 counterexample: with a valid context and a transport call that
succeeds with a response carrying no header, `query` returns the payload
as success — it is not a failure, contradicting the claim that a
header-less response is treated as a failure. -/
theorem missing_header_counterexample :
    (RpcClientImpl.new ⟨"ch"⟩ 100 200).query
      (fun _ _ => Except.ok (⟨none, (42 : Nat)⟩ : PbResponse Nat)) ⟨"t1", "tok", none⟩ (0 : Nat)
      = Except.ok ⟨none, 42⟩
    ∧ ((RpcClientImpl.new ⟨"ch"⟩ 100 200).write
      (fun _ _ => Except.ok (⟨none, (42 : Nat)⟩ : PbResponse Nat)) ⟨"t1", "tok", none⟩ (0 : Nat)
      = Except.ok ⟨none, 42⟩)
    ∧ ((RpcClientImpl.new ⟨"ch"⟩ 100 200).route
      (fun _ _ => Except.ok (⟨none, (42 : Nat)⟩ : PbResponse Nat)) ⟨"t1", "tok", none⟩ (0 : Nat)
      = Except.ok ⟨none, 42⟩) :=
  ⟨rfl, rfl, rfl⟩

/-- C1 (amended): for every one of `query`, `write` and `route`, if the
transport-level call succeeds but the response carries no response
header, the operation returns the payload as success; the header status
check runs only when a header is present. -/
theorem missing_header_returns_success (self : RpcClientImpl) (ctx : RpcContext)
    {α β : Type} (req : α) (payload : β)
    (htenant : isValidMetadata ctx.tenant = true)
    (htoken : isValidMetadata ctx.token = true) :
    self.query (fun _ _ => Except.ok ⟨none, payload⟩) ctx req = Except.ok ⟨none, payload⟩
    ∧ self.write (fun _ _ => Except.ok ⟨none, payload⟩) ctx req = Except.ok ⟨none, payload⟩
    ∧ self.route (fun _ _ => Except.ok ⟨none, payload⟩) ctx req = Except.ok ⟨none, payload⟩ := by
  unfold RpcClientImpl.query RpcClientImpl.write RpcClientImpl.route
  simp [AuthInterceptor.new, htenant, htoken, RpcClientImpl.unwrapResponse]

/-- C1 (amended) witness at a concrete context, payload and client. -/
theorem missing_header_returns_success_witness :
    (RpcClientImpl.new ⟨"c"⟩ 10 20).query
      (fun _ _ => Except.ok (⟨none, (7 : Nat)⟩ : PbResponse Nat)) ⟨"t", "k", none⟩ (1 : Nat)
      = Except.ok ⟨none, 7⟩ :=
  (missing_header_returns_success (RpcClientImpl.new ⟨"c"⟩ 10 20) ⟨"t", "k", none⟩ (1 : Nat)
    (7 : Nat) (by decide) (by decide)).1

/-- C4: the deadline set on the outbound request (observed by a transport
probe that reports the timeout of the request it received) is the
context's timeout when present, else the read default for `query` and
the write default for both `write` and `route`. -/
theorem effective_deadline (self : RpcClientImpl) (ctx : RpcContext) {α : Type} (req : α)
    (htenant : isValidMetadata ctx.tenant = true)
    (htoken : isValidMetadata ctx.token = true) :
    self.query (fun _ r => Except.ok (⟨none, r.timeout⟩ : PbResponse (Option Duration))) ctx req
      = Except.ok ⟨none, some (ctx.timeout.getD self.default_read_timeout)⟩
    ∧ self.write (fun _ r => Except.ok (⟨none, r.timeout⟩ : PbResponse (Option Duration))) ctx req
      = Except.ok ⟨none, some (ctx.timeout.getD self.default_write_timeout)⟩
    ∧ self.route (fun _ r => Except.ok (⟨none, r.timeout⟩ : PbResponse (Option Duration))) ctx req
      = Except.ok ⟨none, some (ctx.timeout.getD self.default_write_timeout)⟩ := by
  unfold RpcClientImpl.query RpcClientImpl.write RpcClientImpl.route
  simp [AuthInterceptor.new, htenant, htoken, RpcClientImpl.unwrapResponse,
    RpcClientImpl.make_query_request, RpcClientImpl.make_write_request,
    RpcClientImpl.make_request, Request.new, Request.set_timeout]

/-- C4 witness: with an explicit timeout of 7 every operation's deadline is 7;
with no timeout, `query` gets the read default 10 and `write`/`route` the
write default 20. -/
theorem effective_deadline_witness :
    ((RpcClientImpl.new ⟨"c"⟩ 10 20).query
      (fun _ r => Except.ok (⟨none, r.timeout⟩ : PbResponse (Option Duration)))
      ⟨"t", "k", some 7⟩ (0 : Nat) = Except.ok ⟨none, some 7⟩
    ∧ (RpcClientImpl.new ⟨"c"⟩ 10 20).write
      (fun _ r => Except.ok (⟨none, r.timeout⟩ : PbResponse (Option Duration)))
      ⟨"t", "k", some 7⟩ (0 : Nat) = Except.ok ⟨none, some 7⟩
    ∧ (RpcClientImpl.new ⟨"c"⟩ 10 20).route
      (fun _ r => Except.ok (⟨none, r.timeout⟩ : PbResponse (Option Duration)))
      ⟨"t", "k", some 7⟩ (0 : Nat) = Except.ok ⟨none, some 7⟩)
    ∧ ((RpcClientImpl.new ⟨"c"⟩ 10 20).query
      (fun _ r => Except.ok (⟨none, r.timeout⟩ : PbResponse (Option Duration)))
      ⟨"t", "k", none⟩ (0 : Nat) = Except.ok ⟨none, some 10⟩
    ∧ (RpcClientImpl.new ⟨"c"⟩ 10 20).write
      (fun _ r => Except.ok (⟨none, r.timeout⟩ : PbResponse (Option Duration)))
      ⟨"t", "k", none⟩ (0 : Nat) = Except.ok ⟨none, some 20⟩
    ∧ (RpcClientImpl.new ⟨"c"⟩ 10 20).route
      (fun _ r => Except.ok (⟨none, r.timeout⟩ : PbResponse (Option Duration)))
      ⟨"t", "k", none⟩ (0 : Nat) = Except.ok ⟨none, some 20⟩) :=
  ⟨effective_deadline (RpcClientImpl.new ⟨"c"⟩ 10 20) ⟨"t", "k", some 7⟩ (0 : Nat)
      (by decide) (by decide),
   effective_deadline (RpcClientImpl.new ⟨"c"⟩ 10 20) ⟨"t", "k", none⟩ (0 : Nat)
      (by decide) (by decide)⟩

/-- C5: for every operation, a response whose header carries the success code
returns the payload unchanged, and a response with any other header code
yields a `Server` error with exactly that code and message, discarding
the payload. -/
theorem header_validation (self : RpcClientImpl) (ctx : RpcContext) {α β : Type}
    (req : α) (header : ResponseHeader) (payload : β)
    (htenant : isValidMetadata ctx.tenant = true)
    (htoken : isValidMetadata ctx.token = true) :
    (is_ok header.code = true →
      self.query (fun _ _ => Except.ok ⟨some header, payload⟩) ctx req
        = Except.ok ⟨none, payload⟩
      ∧ self.write (fun _ _ => Except.ok ⟨some header, payload⟩) ctx req
        = Except.ok ⟨none, payload⟩
      ∧ self.route (fun _ _ => Except.ok ⟨some header, payload⟩) ctx req
        = Except.ok ⟨none, payload⟩)
    ∧ (is_ok header.code = false →
      self.query (fun _ _ => Except.ok ⟨some header, payload⟩) ctx req
        = Except.error (Error.Server ⟨header.code, header.error⟩)
      ∧ self.write (fun _ _ => Except.ok ⟨some header, payload⟩) ctx req
        = Except.error (Error.Server ⟨header.code, header.error⟩)
      ∧ self.route (fun _ _ => Except.ok ⟨some header, payload⟩) ctx req
        = Except.error (Error.Server ⟨header.code, header.error⟩)) := by
  unfold RpcClientImpl.query RpcClientImpl.write RpcClientImpl.route
  constructor <;> intro hcode <;>
    simp [AuthInterceptor.new, htenant, htoken, RpcClientImpl.unwrapResponse,
      RpcClientImpl.check_status, hcode]

/-- C5 witness: a success header returns the payload 5; the header
`(1, "tenant not found")` yields `Server` with code 1 and that message
verbatim, the payload 5 discarded. -/
theorem header_validation_witness :
    (RpcClientImpl.new ⟨"c"⟩ 10 20).query
      (fun _ _ => Except.ok (⟨some ⟨okCode, ""⟩, (5 : Nat)⟩ : PbResponse Nat))
      ⟨"t", "k", none⟩ (0 : Nat) = Except.ok ⟨none, 5⟩
    ∧ (RpcClientImpl.new ⟨"c"⟩ 10 20).query
      (fun _ _ => Except.ok (⟨some ⟨1, "tenant not found"⟩, (5 : Nat)⟩ : PbResponse Nat))
      ⟨"t", "k", none⟩ (0 : Nat) = Except.error (Error.Server ⟨1, "tenant not found"⟩) :=
  ⟨((header_validation (RpcClientImpl.new ⟨"c"⟩ 10 20) ⟨"t", "k", none⟩ (0 : Nat)
      ⟨okCode, ""⟩ (5 : Nat) (by decide) (by decide)).1 (by decide)).1,
   ((header_validation (RpcClientImpl.new ⟨"c"⟩ 10 20) ⟨"t", "k", none⟩ (0 : Nat)
      ⟨1, "tenant not found"⟩ (5 : Nat) (by decide) (by decide)).2 (by decide)).1⟩

/-- C6: an unencodable tenant makes every operation fail with
`AuthFail(InvalidTenantMeta)` for every transport whatsoever (so before,
and independent of, any network I/O); with an encodable tenant, an
unencodable token likewise fails every operation with
`AuthFail(InvalidTokenMeta)` for every transport. -/
theorem auth_fail_before_network (self : RpcClientImpl) (ctx : RpcContext)
    {α β : Type} (req : α) :
    (isValidMetadata ctx.tenant = false →
      ∀ transport : Transport α β,
        self.query transport ctx req = Except.error (Error.AuthFail
          ⟨AuthCode.InvalidTenantMeta,
            "invalid tenant: " ++ ctx.tenant ++ ", can not be converted to grpc metadata"⟩)
        ∧ self.write transport ctx req = Except.error (Error.AuthFail
          ⟨AuthCode.InvalidTenantMeta,
            "invalid tenant: " ++ ctx.tenant ++ ", can not be converted to grpc metadata"⟩)
        ∧ self.route transport ctx req = Except.error (Error.AuthFail
          ⟨AuthCode.InvalidTenantMeta,
            "invalid tenant: " ++ ctx.tenant ++ ", can not be converted to grpc metadata"⟩))
    ∧ (isValidMetadata ctx.tenant = true → isValidMetadata ctx.token = false →
      ∀ transport : Transport α β,
        self.query transport ctx req = Except.error (Error.AuthFail
          ⟨AuthCode.InvalidTokenMeta,
            "invalid token: " ++ ctx.token ++ ", can not be converted to grpc metadata"⟩)
        ∧ self.write transport ctx req = Except.error (Error.AuthFail
          ⟨AuthCode.InvalidTokenMeta,
            "invalid token: " ++ ctx.token ++ ", can not be converted to grpc metadata"⟩)
        ∧ self.route transport ctx req = Except.error (Error.AuthFail
          ⟨AuthCode.InvalidTokenMeta,
            "invalid token: " ++ ctx.token ++ ", can not be converted to grpc metadata"⟩)) := by
  unfold RpcClientImpl.query RpcClientImpl.write RpcClientImpl.route
  constructor
  · intro hbad transport
    simp [AuthInterceptor.new, hbad]
  · intro hok hbad transport
    simp [AuthInterceptor.new, hok, hbad]

/-- C6 witness: a tenant with a raw newline fails `query` with
`InvalidTenantMeta`; a token with a raw newline (tenant valid) fails
`query` with `InvalidTokenMeta` — under a concrete transport. -/
theorem auth_fail_before_network_witness :
    (RpcClientImpl.new ⟨"c"⟩ 10 20).query
      (fun _ _ => Except.ok (⟨none, (0 : Nat)⟩ : PbResponse Nat)) ⟨"bad\ntenant", "k", none⟩
      (0 : Nat) = Except.error (Error.AuthFail
        ⟨AuthCode.InvalidTenantMeta,
          "invalid tenant: " ++ "bad\ntenant" ++ ", can not be converted to grpc metadata"⟩)
    ∧ (RpcClientImpl.new ⟨"c"⟩ 10 20).query
      (fun _ _ => Except.ok (⟨none, (0 : Nat)⟩ : PbResponse Nat)) ⟨"t", "bad\ntoken", none⟩
      (0 : Nat) = Except.error (Error.AuthFail
        ⟨AuthCode.InvalidTokenMeta,
          "invalid token: " ++ "bad\ntoken" ++ ", can not be converted to grpc metadata"⟩) :=
  ⟨((auth_fail_before_network (RpcClientImpl.new ⟨"c"⟩ 10 20) ⟨"bad\ntenant", "k", none⟩
      (0 : Nat)).1 (by decide) (fun _ _ => Except.ok ⟨none, 0⟩)).1,
   ((auth_fail_before_network (RpcClientImpl.new ⟨"c"⟩ 10 20) ⟨"t", "bad\ntoken", none⟩
      (0 : Nat)).2 (by decide) (by decide) (fun _ _ => Except.ok ⟨none, 0⟩)).1⟩

/-- C10: when both the tenant and the token are unencodable as transport
metadata, `AuthInterceptor::new` fails with `AuthFail(InvalidTenantMeta)`:
the tenant is parsed first, so its error takes precedence. -/
theorem tenant_error_precedence (ctx : RpcContext)
    (htenant : isValidMetadata ctx.tenant = false)
    (htoken : isValidMetadata ctx.token = false) :
    AuthInterceptor.new ctx = Except.error (Error.AuthFail
      ⟨AuthCode.InvalidTenantMeta,
        "invalid tenant: " ++ ctx.tenant ++ ", can not be converted to grpc metadata"⟩) := by
  unfold AuthInterceptor.new
  simp [htenant]

/-- C10 witness: both strings carry a raw newline; the failure is the tenant
one. -/
theorem tenant_error_precedence_witness :
    isValidMetadata "a\nb" = false
    ∧ AuthInterceptor.new ⟨"a\nb", "c\nd", none⟩ = Except.error (Error.AuthFail
      ⟨AuthCode.InvalidTenantMeta,
        "invalid tenant: " ++ "a\nb" ++ ", can not be converted to grpc metadata"⟩) :=
  ⟨by decide, tenant_error_precedence ⟨"a\nb", "c\nd", none⟩ (by decide) (by decide)⟩

/-- C7: an interceptor built from a context injects exactly one metadata
entry — the verbatim tenant string under `RPC_HEADER_TENANT_KEY` — into
the outbound request: every other metadata key, the message and the
timeout are unchanged, so in particular the token is never injected. -/
theorem auth_injects_tenant_only (ctx : RpcContext) (i : AuthInterceptor) {α : Type}
    (req out : Request α)
    (hnew : AuthInterceptor.new ctx = Except.ok i)
    (hcall : i.call req = Except.ok out) :
    out.metadata RPC_HEADER_TENANT_KEY = some ctx.tenant
    ∧ (∀ k, k ≠ RPC_HEADER_TENANT_KEY → out.metadata k = req.metadata k)
    ∧ out.message = req.message
    ∧ out.timeout = req.timeout := by
  rw [AuthInterceptor.new] at hnew
  split_ifs at hnew
  injection hnew with hi
  subst hi
  rw [AuthInterceptor.call] at hcall
  injection hcall with hout
  subst hout
  refine ⟨?_, ?_, rfl, rfl⟩
  · simp [Metadata.insert]
  · intro k hk
    simp [Metadata.insert, hk]

/-- C7 witness: from tenant `"t1"`, the outbound metadata carries `"t1"`
under the tenant key while an unrelated key stays untouched. -/
theorem auth_injects_tenant_only_witness :
    Metadata.insert Metadata.empty RPC_HEADER_TENANT_KEY "t1" RPC_HEADER_TENANT_KEY = some "t1"
    ∧ Metadata.insert Metadata.empty RPC_HEADER_TENANT_KEY "t1" "x-other-key"
      = Metadata.empty "x-other-key" :=
  ⟨(auth_injects_tenant_only ⟨"t1", "tok", none⟩ ⟨"t1", "tok"⟩
      { message := (0 : Nat) } _ rfl rfl).1,
   (auth_injects_tenant_only ⟨"t1", "tok", none⟩ ⟨"t1", "tok"⟩
      { message := (0 : Nat) } _ rfl rfl).2.1 "x-other-key" (by decide)⟩

/-- C8: the session factory connects with the endpoint string prefixed by the
plaintext scheme `http://`; a malformed resulting string (parse oracle
says invalid) yields `Connect` carrying the original endpoint and the
parse cause for every possible `connect`, i.e. without attempting a
handshake; when the string parses, the handshake receives exactly the
scheme-prefixed string. -/
theorem connect_error_on_malformed_endpoint (self : RpcClientImplFactory)
    (validUri : String → Bool) (endpoint : String) :
    RpcClientImplFactory.make_endpoint_with_scheme endpoint = "http://" ++ endpoint
    ∧ (validUri ("http://" ++ endpoint) = false →
      ∀ connect : TonicEndpoint → Except String Channel,
        self.build validUri connect endpoint
          = Except.error (Error.Connect endpoint ("invalid uri: " ++ ("http://" ++ endpoint))))
    ∧ (validUri ("http://" ++ endpoint) = true →
      self.build validUri (fun e => Except.error e.uri) endpoint
        = Except.error (Error.Connect endpoint ("http://" ++ endpoint))) := by
  refine ⟨rfl, ?_, ?_⟩
  · intro hbad connect
    unfold RpcClientImplFactory.build
    simp [RpcClientImplFactory.make_endpoint_with_scheme, TonicEndpoint.from_shared, hbad]
  · intro hok
    unfold RpcClientImplFactory.build
    cases hka : self.grpc_config.keep_alive_while_idle <;>
      simp [RpcClientImplFactory.make_endpoint_with_scheme, TonicEndpoint.from_shared, hok,
        hka, TonicEndpoint.connect_timeout, TonicEndpoint.keep_alive_timeout,
        TonicEndpoint.keep_alive_while_idle, TonicEndpoint.http2_keep_alive_interval]

/-- C8 witness: a parse oracle accepting only `"http://good"`: building
`"bad"` fails with `Connect` carrying `"bad"` and the parse cause under
an arbitrary handshake; building `"good"` hands `"http://good"` to the
handshake. -/
theorem connect_error_on_malformed_endpoint_witness :
    (RpcClientImplFactory.mk ⟨1, 2, 3⟩ ⟨false, 40, 50⟩).build
      (fun s => s == "http://good") (fun _ => Except.ok ⟨"c"⟩) "bad"
      = Except.error (Error.Connect "bad" ("invalid uri: " ++ ("http://" ++ "bad")))
    ∧ (RpcClientImplFactory.mk ⟨1, 2, 3⟩ ⟨false, 40, 50⟩).build
      (fun s => s == "http://good") (fun e => Except.error e.uri) "good"
      = Except.error (Error.Connect "good" ("http://" ++ "good")) :=
  ⟨(connect_error_on_malformed_endpoint (RpcClientImplFactory.mk ⟨1, 2, 3⟩ ⟨false, 40, 50⟩)
      (fun s => s == "http://good") "bad").2.1 (by decide) (fun _ => Except.ok ⟨"c"⟩),
   (connect_error_on_malformed_endpoint (RpcClientImplFactory.mk ⟨1, 2, 3⟩ ⟨false, 40, 50⟩)
      (fun s => s == "http://good") "good").2.2 (by decide)⟩

/-- C9: when the scheme-prefixed endpoint parses, the handshake receives the
endpoint configured exactly as follows — with `keep_alive_while_idle`
off: only the connect timeout set and keep-alive disabled (keep-alive
timeout and interval unset); with it on: additionally the keep-alive
timeout and interval set and keep-alive while idle enabled — and the
result is wrapped with the read/write defaults. -/
theorem keep_alive_configuration (self : RpcClientImplFactory)
    (validUri : String → Bool) (connect : TonicEndpoint → Except String Channel)
    (endpoint : String)
    (hvalid : validUri ("http://" ++ endpoint) = true) :
    (self.grpc_config.keep_alive_while_idle = false →
      self.build validUri connect endpoint =
        match connect { uri := "http://" ++ endpoint,
                        connectTimeout := some self.rpc_opts.connect_timeout,
                        keepAliveTimeout := none,
                        keepAliveWhileIdle := false,
                        http2KeepAliveInterval := none } with
        | Except.error e => Except.error (Error.Connect endpoint e)
        | Except.ok channel =>
          Except.ok (RpcClientImpl.new channel self.rpc_opts.read_timeout
            self.rpc_opts.write_timeout))
    ∧ (self.grpc_config.keep_alive_while_idle = true →
      self.build validUri connect endpoint =
        match connect { uri := "http://" ++ endpoint,
                        connectTimeout := some self.rpc_opts.connect_timeout,
                        keepAliveTimeout := some self.grpc_config.keep_alive_timeout,
                        keepAliveWhileIdle := true,
                        http2KeepAliveInterval := some self.grpc_config.keep_alive_interval } with
        | Except.error e => Except.error (Error.Connect endpoint e)
        | Except.ok channel =>
          Except.ok (RpcClientImpl.new channel self.rpc_opts.read_timeout
            self.rpc_opts.write_timeout)) := by
  constructor <;> intro hka <;>
    · unfold RpcClientImplFactory.build
      simp [RpcClientImplFactory.make_endpoint_with_scheme, TonicEndpoint.from_shared, hvalid,
        hka, TonicEndpoint.connect_timeout, TonicEndpoint.keep_alive_timeout,
        TonicEndpoint.keep_alive_while_idle, TonicEndpoint.http2_keep_alive_interval]

/-- C9 witness: with keep-alive off the handshake sees only the connect
timeout applied; with it on the keep-alive timeout and interval are
applied too (the probe handshake stores the configured uri). -/
theorem keep_alive_configuration_witness :
    (RpcClientImplFactory.mk ⟨1, 2, 3⟩ ⟨false, 40, 50⟩).build (fun _ => true)
      (fun e => if e.keepAliveTimeout == none && e.keepAliveWhileIdle == false &&
          e.http2KeepAliveInterval == none && e.connectTimeout == some 1
        then Except.ok ⟨e.uri⟩ else Except.error "unexpected configuration") "ep"
      = Except.ok (RpcClientImpl.new ⟨"http://" ++ "ep"⟩ 2 3)
    ∧ (RpcClientImplFactory.mk ⟨1, 2, 3⟩ ⟨true, 40, 50⟩).build (fun _ => true)
      (fun e => if e.keepAliveTimeout == some 40 && e.keepAliveWhileIdle == true &&
          e.http2KeepAliveInterval == some 50 && e.connectTimeout == some 1
        then Except.ok ⟨e.uri⟩ else Except.error "unexpected configuration") "ep"
      = Except.ok (RpcClientImpl.new ⟨"http://" ++ "ep"⟩ 2 3) :=
  ⟨(keep_alive_configuration (RpcClientImplFactory.mk ⟨1, 2, 3⟩ ⟨false, 40, 50⟩) (fun _ => true)
      (fun e => if e.keepAliveTimeout == none && e.keepAliveWhileIdle == false &&
          e.http2KeepAliveInterval == none && e.connectTimeout == some 1
        then Except.ok ⟨e.uri⟩ else Except.error "unexpected configuration") "ep" rfl).1 rfl,
   (keep_alive_configuration (RpcClientImplFactory.mk ⟨1, 2, 3⟩ ⟨true, 40, 50⟩) (fun _ => true)
      (fun e => if e.keepAliveTimeout == some 40 && e.keepAliveWhileIdle == true &&
          e.http2KeepAliveInterval == some 50 && e.connectTimeout == some 1
        then Except.ok ⟨e.uri⟩ else Except.error "unexpected configuration") "ep" rfl).2 rfl⟩

/-- C2: when the first build attempt succeeds with handle `h`, any serialized
interleaving of `n + 1` calls racing on a fresh client runs the factory's
build routine exactly once (`buildCount = 1`) and every one of the
calls — the racers and every later caller — observes the same handle
`h`. -/
theorem single_initialization (c : InnerClient) (ctx : RpcContext) (h : Handle)
    (hbuild : c.init 0 = Except.ok h) (n : Nat) :
    runQueryCalls c ctx (n + 1)
      = ({ cell := some h, buildCount := 1 }, List.replicate (n + 1) (Except.ok h)) := by
  induction n with
  | zero =>
    simp [runQueryCalls, InnerClient.query_internal, get_or_try_init, CellState.fresh, hbuild,
      Except.bind]
  | succ n ih =>
    rw [runQueryCalls, ih]
    simp only [InnerClient.query_internal, get_or_try_init]
    simp [Except.bind, ← List.replicate_succ']

/-- C2 witness: a factory that always succeeds with handle 7; three calls on
a fresh client give one build and three observations of handle 7. -/
theorem single_initialization_witness :
    (InnerClient.mk (fun _ _ => Except.ok 7) "127.0.0.1:8831").init 0 = Except.ok 7
    ∧ runQueryCalls (InnerClient.mk (fun _ _ => Except.ok 7) "127.0.0.1:8831") ⟨"t", "k", none⟩ 3
      = ({ cell := some 7, buildCount := 1 }, List.replicate 3 (Except.ok 7)) :=
  ⟨rfl, single_initialization (InnerClient.mk (fun _ _ => Except.ok 7) "127.0.0.1:8831")
    ⟨"t", "k", none⟩ 7 rfl 2⟩

/-- C3: when the first build attempt fails with `e`, `query_internal` and
`write_internal` on a fresh client leave the cell uninitialized
(`cell = none`) and return exactly `e`; a subsequent call does not
observe a cached failure but invokes the build routine again (attempt 1,
whose success `h` is then cached and returned), for both operations. -/
theorem retry_after_failed_init (c : InnerClient) (ctx : RpcContext) (e : Error) (h : Handle)
    (hfail : c.init 0 = Except.error e) (hretry : c.init 1 = Except.ok h) :
    c.query_internal (fun hd _ _ => Except.ok hd) (fun r : Nat => r) Except.ok ctx 0
        CellState.fresh
      = ({ cell := none, buildCount := 1 }, Except.error e)
    ∧ c.write_internal (fun hd _ _ => Except.ok hd) (fun r : Nat => r) (fun r => r) ctx 0
        CellState.fresh
      = ({ cell := none, buildCount := 1 }, Except.error e)
    ∧ c.query_internal (fun hd _ _ => Except.ok hd) (fun r : Nat => r) Except.ok ctx 0
        { cell := none, buildCount := 1 }
      = ({ cell := some h, buildCount := 2 }, Except.ok h)
    ∧ c.write_internal (fun hd _ _ => Except.ok hd) (fun r : Nat => r) (fun r => r) ctx 0
        { cell := none, buildCount := 1 }
      = ({ cell := some h, buildCount := 2 }, Except.ok h) := by
  refine ⟨?_, ?_, ?_, ?_⟩ <;>
    simp [InnerClient.query_internal, InnerClient.write_internal, get_or_try_init,
      CellState.fresh, hfail, hretry, Except.bind, Except.map]

/-- C3 witness: attempt 0 fails with an `Rpc` error, attempt 1 succeeds with
handle 5; the first call returns the error with the cell still empty and
the second call rebuilds and caches handle 5. -/
theorem retry_after_failed_init_witness :
    (InnerClient.mk
        (fun _ k => if k == 0 then Except.error (Error.Rpc "connection refused")
          else Except.ok 5) "ep").query_internal
        (fun hd _ _ => Except.ok hd) (fun r : Nat => r) Except.ok ⟨"t", "k", none⟩ 0
        CellState.fresh
      = ({ cell := none, buildCount := 1 }, Except.error (Error.Rpc "connection refused"))
    ∧ (InnerClient.mk
        (fun _ k => if k == 0 then Except.error (Error.Rpc "connection refused")
          else Except.ok 5) "ep").query_internal
        (fun hd _ _ => Except.ok hd) (fun r : Nat => r) Except.ok ⟨"t", "k", none⟩ 0
        { cell := none, buildCount := 1 }
      = ({ cell := some 5, buildCount := 2 }, Except.ok 5) :=
  ⟨(retry_after_failed_init (InnerClient.mk
      (fun _ k => if k == 0 then Except.error (Error.Rpc "connection refused")
        else Except.ok 5) "ep") ⟨"t", "k", none⟩ (Error.Rpc "connection refused") 5
      rfl rfl).1,
   (retry_after_failed_init (InnerClient.mk
      (fun _ k => if k == 0 then Except.error (Error.Rpc "connection refused")
        else Except.ok 5) "ep") ⟨"t", "k", none⟩ (Error.Rpc "connection refused") 5
      rfl rfl).2.2.1⟩

end Ceres
